import Mathlib

/-!
Verification of the IMAP server protocol engine (class `IMAPServer`,
file `src/imap.ts`): shallow embedding of the session data model
(`IConnectInfo` from `interface.ts`), the command handlers
(`commandCapability`, `commandLogin`, `commandLogout`, `commandSelect`,
`commandList`, `commandStartTLS`, and the extension verbs), the
tokenizer/dispatcher `handleOnData`, and admission control
`handleConnection`.

Modelling conventions:
- The per-connection session entry stored in `Storage` is `IConnectInfo`;
  an `Option IConnectInfo` models presence or absence of the entry under
  the connection identifier (so `none` after a handler means
  `storage.destroy` was called for that identifier).
- Socket writes are collected as a list of response lines, in order,
  without the trailing CRLF.
- Event observers run synchronously inside `emit`; their behaviour is an
  `Env` value: which acknowledgement each observer invokes, the listener
  counts per event name, and whether the TLS wrap succeeds.
-/

/-- The session state field of `IConnectInfo` (interface.ts):
`'not_authenticated' | 'authenticated' | 'selected' | 'logout'`. -/
inductive SessState where
  | not_authenticated
  | authenticated
  | selected
  | logout
deriving DecidableEq, Repr

/-- `IConnectInfo` from interface.ts: the per-connection session entry held
in the session store. Optional TS fields become `Option`. -/
structure IConnectInfo where
  state : SessState
  user : Option String
  selectedMailbox : Option String
  secure : Bool
deriving DecidableEq, Repr

/-- A mailbox entry supplied by a LIST observer: `{name, child}`. -/
structure Mailbox where
  name : String
  child : Bool
deriving DecidableEq, Repr

/-- The configuration fields of `IMAPServerConfig` that the engine logic
reads: `TLSOptions.enable/key/cert`, `welcomeMessage`, `maxConnections`. -/
structure Config where
  welcomeMessage : String
  tlsEnable : Bool
  tlsKey : Option String
  tlsCert : Option String
  maxConnections : Nat
deriving Repr

/-- Observer environment for one dispatched command: how the registered
event listeners behave when the engine emits an event.
`listeners e` is `listenerCount(e)` for event name `e` (event names are
case-sensitive strings, exactly as in EventEmitter).
`loginAck = some b` means a LOGIN observer synchronously invokes
`auth(b)`; `none` means no observer invokes the callback.
`selectAck = some (exists, flags)` means a SELECT observer invokes its
callback with those arguments; `listAck` likewise for LIST.
`tlsWrapOk` is whether `new tls.TLSSocket(...)` succeeds. -/
structure Env where
  listeners : String → Nat
  loginAck : Option Bool
  selectAck : Option (Bool × List String)
  listAck : Option (List Mailbox)
  tlsWrapOk : Bool

/-- The event names of the typed interface `IMAPServerEvents`
(interface.ts). The typed `on`/`once` accept only these names, so any
other event name has listener count 0. -/
def typedEventNames : List String :=
  ["connect", "close", "LOGIN", "LOGOUT", "SELECT", "data", "timeout",
   "listening", "error", "CAPABILITY", "LIST", "connection:close",
   "command", "CREATE", "EXAMINE", "DELETE", "RENAME", "SUBSCRIBE",
   "UNSUBSCRIBE", "STATUS", "APPEND", "CHECK", "CLOSE", "EXPUNGE",
   "SEARCH", "FETCH", "STORE", "COPY", "MOVE"]

/-- `s.replace(/"/g, '')`: delete every double-quote character. -/
def stripQuotes (s : String) : String :=
  String.mk (s.data.filter (fun c => c ≠ '"'))

/-- `s.toUpperCase()`: upper-case every character of the decoded string
(structural recursion over the character list, so that it reduces). -/
def upperStr (s : String) : String :=
  String.mk (s.data.map Char.toUpper)

/-- JS falsiness of an optional string (`!x` for `x: string | undefined`):
true when the value is absent or the empty string. -/
def strFalsy : Option String → Bool
  | none => true
  | some s => s = ""

/-- The capability list built by `commandCapability`: base capabilities,
with `STARTTLS` pushed at the end when the connection is not secure. -/
def capabilityList (secure : Bool) : List String :=
  ["IMAP4rev1", "IMAP4", "AUTH=PLAIN", "AUTH=LOGIN"] ++
    (if secure then [] else ["STARTTLS"])

/-- `commandCapability` (imap.ts): emits the capability line and the
tagged OK; never touches the session entry. -/
def commandCapability (info : IConnectInfo) (tag : String) :
    List String × IConnectInfo :=
  (["* CAPABILITY " ++ String.intercalate " " (capabilityList info.secure),
    tag ++ " OK CAPABILITY completed"], info)

/-- `commandLogin` (imap.ts): rejects outside `not_authenticated`,
requires two arguments, emits the `LOGIN` event whose `auth(success)`
callback commits the transition and answers; afterwards, if
`listenerCount('login')` is zero (note the lower-case event name, while
listeners register under `'LOGIN'`), additionally answers
`NO LOGIN failed`. -/
def commandLogin (env : Env) (info : IConnectInfo) (tag : String)
    (args : List String) : List String × IConnectInfo :=
  if info.state ≠ SessState.not_authenticated then
    ([tag ++ " BAD Command not valid in current state"], info)
  else if args.length < 2 then
    ([tag ++ " BAD Missing required arguments"], info)
  else
    let username := stripQuotes (args.headD "")
    let ackResult : List String × IConnectInfo :=
      match env.loginAck with
      | some true =>
          ([tag ++ " OK LOGIN completed"],
           { info with state := SessState.authenticated,
                       user := some username })
      | some false => ([tag ++ " NO LOGIN failed"], info)
      | none => ([], info)
    let fallback : List String :=
      if env.listeners "login" = 0 then [tag ++ " NO LOGIN failed"] else []
    (ackResult.1 ++ fallback, ackResult.2)

/-- `commandLogout` (imap.ts): sends BYE and the tagged OK, sets the state
to `logout`, then `closeConnection` destroys the session entry, so the
entry under this identifier is gone afterwards. -/
def commandLogout (info : IConnectInfo) (tag : String) :
    List String × Option IConnectInfo :=
  let _final : IConnectInfo := { info with state := SessState.logout }
  (["* BYE IMAP server logging out", tag ++ " OK LOGOUT completed"], none)

/-- `commandSelect` (imap.ts): gate on state, require one argument, then
commit `state = selected` and record the quote-stripped mailbox name
BEFORE emitting the `SELECT` event; the observer callback only chooses
which response lines are sent. -/
def commandSelect (env : Env) (info : IConnectInfo) (tag : String)
    (args : List String) : List String × IConnectInfo :=
  if info.state ≠ SessState.authenticated ∧ info.state ≠ SessState.selected then
    ([tag ++ " BAD Command not valid in current state"], info)
  else if args.length < 1 then
    ([tag ++ " BAD Missing required arguments"], info)
  else
    let mailboxName := stripQuotes (args.headD "")
    let info' : IConnectInfo :=
      { info with state := SessState.selected,
                  selectedMailbox := some mailboxName }
    match env.selectAck with
    | none => ([], info')
    | some (true, flags) =>
        let mailbox := String.intercalate " " (flags.map (fun f => "\\" ++ f))
        (["* 0 EXISTS", "* 0 RECENT",
          "* OK [UNSEEN 0] No unseen messages",
          "* OK [UIDVALIDITY 1] UIDs valid",
          "* OK [UIDNEXT 1] Predicted next UID",
          "* FLAGS (" ++ mailbox ++ ")",
          "* OK [PERMANENTFLAGS (" ++ mailbox ++ "\x7d)] Permanent flags",
          tag ++ " OK [READ-WRITE] SELECT completed"], info')
    | some (false, _) =>
        ([tag ++ " NO Mailbox doesn\x27t exist (Failure)"], info')

/-- One untagged LIST response line for a mailbox entry. -/
def renderListLine (m : Mailbox) : String :=
  "* LIST (\\" ++ (if m.child then "HasChildren" else "NoChildren") ++
    ") \".\" \"" ++ m.name ++ "\""

/-- `commandList` (imap.ts): gate on state, require two arguments, then
the LIST observer callback renders one line per supplied mailbox followed
by the tagged OK. -/
def commandList (env : Env) (info : IConnectInfo) (tag : String)
    (args : List String) : List String × IConnectInfo :=
  if info.state ≠ SessState.authenticated ∧ info.state ≠ SessState.selected then
    ([tag ++ " BAD Command not valid in current state"], info)
  else if args.length < 2 then
    ([tag ++ " BAD Missing required arguments"], info)
  else
    match env.listAck with
    | none => ([], info)
    | some mailboxes =>
        (mailboxes.map renderListLine ++ [tag ++ " OK LIST completed"], info)

/-- `commandStartTLS` (imap.ts): reject when already secure; reject when
TLS is not enabled or key or cert is missing/empty; otherwise answer
`OK Begin TLS negotiation now` and wrap the socket. On wrap success the
entry under the same identifier is destroyed and re-set with the same
`state` and `user`, `secure: true` (the `selectedMailbox` field is not
carried over). On wrap failure `closeConnection` destroys the entry. -/
def commandStartTLS (cfg : Config) (env : Env) (info : IConnectInfo)
    (tag : String) : List String × Option IConnectInfo :=
  if info.secure then
    ([tag ++ " BAD Connection already secure"], some info)
  else if !cfg.tlsEnable || strFalsy cfg.tlsKey || strFalsy cfg.tlsCert then
    ([tag ++ " NO STARTTLS not available"], some info)
  else if env.tlsWrapOk then
    ([tag ++ " OK Begin TLS negotiation now"],
     some { state := info.state, user := info.user,
            selectedMailbox := none, secure := true })
  else
    ([tag ++ " OK Begin TLS negotiation now"], none)

/-- Common shape of the sixteen extension-verb handlers `commandCreate`,
`commandExamine`, ..., `commandMove` (imap.ts): require one argument,
then emit the verb event; no response line of its own. -/
def commandExtension (info : IConnectInfo) (tag : String)
    (args : List String) : List String × IConnectInfo :=
  if args.length < 1 then
    ([tag ++ " BAD Missing required arguments"], info)
  else
    ([], info)

/-- The command verbs of the dispatcher switch in `handleOnData`. -/
inductive Verb where
  | capability | login | logout | select | list | noop | starttls
  | create | examine | delete | rename | subscribe | unsubscribe
  | status | append | check | close | expunge | search | fetch
  | store | copy | move | unknown
deriving DecidableEq, Repr

/-- Classify an (already upper-cased) command token, mirroring the case
labels of the dispatcher switch. -/
def parseVerb (s : String) : Verb :=
  if s = "CAPABILITY" then Verb.capability
  else if s = "LOGIN" then Verb.login
  else if s = "LOGOUT" then Verb.logout
  else if s = "SELECT" then Verb.select
  else if s = "LIST" then Verb.list
  else if s = "NOOP" then Verb.noop
  else if s = "STARTTLS" then Verb.starttls
  else if s = "CREATE" then Verb.create
  else if s = "EXAMINE" then Verb.examine
  else if s = "DELETE" then Verb.delete
  else if s = "RENAME" then Verb.rename
  else if s = "SUBSCRIBE" then Verb.subscribe
  else if s = "UNSUBSCRIBE" then Verb.unsubscribe
  else if s = "STATUS" then Verb.status
  else if s = "APPEND" then Verb.append
  else if s = "CHECK" then Verb.check
  else if s = "CLOSE" then Verb.close
  else if s = "EXPUNGE" then Verb.expunge
  else if s = "SEARCH" then Verb.search
  else if s = "FETCH" then Verb.fetch
  else if s = "STORE" then Verb.store
  else if s = "COPY" then Verb.copy
  else if s = "MOVE" then Verb.move
  else Verb.unknown

/-- The shared state gate of the big fall-through case group
(`LOGOUT ... MOVE`) in `handleOnData`: verbs in the group are rejected
unless the state is `authenticated` or `selected`. -/
def requireAuth (info : IConnectInfo) (tag : String)
    (k : List String × Option IConnectInfo) :
    List String × Option IConnectInfo :=
  if info.state ≠ SessState.authenticated ∧ info.state ≠ SessState.selected then
    ([tag ++ " BAD Command not valid in current state"], some info)
  else k

/-- The dispatcher switch of `handleOnData`, given the session entry for
this connection; returns the written lines and the entry afterwards
(`none` when the entry was destroyed). -/
def dispatchCommand (cfg : Config) (env : Env) (info : IConnectInfo)
    (tag command : String) (args : List String) :
    List String × Option IConnectInfo :=
  match parseVerb command with
  | Verb.capability =>
      let r := commandCapability info tag; (r.1, some r.2)
  | Verb.login =>
      let r := commandLogin env info tag args; (r.1, some r.2)
  | Verb.logout => requireAuth info tag (commandLogout info tag)
  | Verb.select =>
      requireAuth info tag
        (let r := commandSelect env info tag args; (r.1, some r.2))
  | Verb.list =>
      requireAuth info tag
        (let r := commandList env info tag args; (r.1, some r.2))
  | Verb.noop => requireAuth info tag ([tag ++ " OK NOOP completed"], some info)
  | Verb.starttls => requireAuth info tag (commandStartTLS cfg env info tag)
  | Verb.create =>
      requireAuth info tag
        (let r := commandExtension info tag args; (r.1, some r.2))
  | Verb.examine =>
      requireAuth info tag
        (let r := commandExtension info tag args; (r.1, some r.2))
  | Verb.delete =>
      requireAuth info tag
        (let r := commandExtension info tag args; (r.1, some r.2))
  | Verb.rename =>
      requireAuth info tag
        (let r := commandExtension info tag args; (r.1, some r.2))
  | Verb.subscribe =>
      requireAuth info tag
        (let r := commandExtension info tag args; (r.1, some r.2))
  | Verb.unsubscribe =>
      requireAuth info tag
        (let r := commandExtension info tag args; (r.1, some r.2))
  | Verb.status =>
      requireAuth info tag
        (let r := commandExtension info tag args; (r.1, some r.2))
  | Verb.append =>
      requireAuth info tag
        (let r := commandExtension info tag args; (r.1, some r.2))
  | Verb.check =>
      requireAuth info tag
        (let r := commandExtension info tag args; (r.1, some r.2))
  | Verb.close =>
      requireAuth info tag
        (let r := commandExtension info tag args; (r.1, some r.2))
  | Verb.expunge =>
      requireAuth info tag
        (let r := commandExtension info tag args; (r.1, some r.2))
  | Verb.search =>
      requireAuth info tag
        (let r := commandExtension info tag args; (r.1, some r.2))
  | Verb.fetch =>
      requireAuth info tag
        (let r := commandExtension info tag args; (r.1, some r.2))
  | Verb.store =>
      requireAuth info tag
        (let r := commandExtension info tag args; (r.1, some r.2))
  | Verb.copy =>
      requireAuth info tag
        (let r := commandExtension info tag args; (r.1, some r.2))
  | Verb.move =>
      requireAuth info tag
        (let r := commandExtension info tag args; (r.1, some r.2))
  | Verb.unknown =>
      ([tag ++ " BAD Command not recognized or not implemented"], some info)

/-- `handleOnData` (imap.ts) on an already-tokenized line: fewer than two
tokens is the untagged malformed answer (before any store lookup); a
missing session entry is the untagged connection-not-found answer; else
the first token is the tag, the upper-cased second the verb, the rest the
arguments. -/
def handleOnData (cfg : Config) (env : Env) (store : Option IConnectInfo)
    (commands : List String) : List String × Option IConnectInfo :=
  match commands with
  | tag :: cmd :: args =>
      match store with
      | none => (["* BAD Connection not found"], none)
      | some info => dispatchCommand cfg env info tag (upperStr cmd) args
  | _ => (["* BAD Malformed command"], store)

/-- `data.toString('utf8').trim().split(' ')`. -/
def tokenize (line : String) : List String :=
  line.trim.splitOn " "

/-- `handleOnData` on a raw inbound line. -/
def handleLine (cfg : Config) (env : Env) (store : Option IConnectInfo)
    (line : String) : List String × Option IConnectInfo :=
  handleOnData cfg env store (tokenize line)

/-- The session entry created by `handleConnection` for a fresh
connection: `{state: 'not_authenticated', secure}`. -/
def initialInfo (secure : Bool) : IConnectInfo :=
  { state := SessState.not_authenticated, user := none,
    selectedMailbox := none, secure := secure }

/-- Outcome of `handleConnection` (imap.ts): the lines written to the new
socket, the session store afterwards (association list keyed by
identifier, as `storage.list()` enumerates it), whether a `Connection`
was created and registered, and whether the transport was destroyed. -/
structure AcceptResult where
  written : List String
  store : List (String × IConnectInfo)
  registered : Bool
  destroyed : Bool
deriving Repr

/-- `handleConnection` (imap.ts): when `maxConnections` is nonzero and
the store already holds at least that many entries, write the single
rejection line and destroy the socket, allocating nothing; otherwise
create the `Connection`, store `{state: 'not_authenticated', secure}`
with `secure = TLSOptions.enable || socket instanceof TLSSocket`, and
write the welcome banner. -/
def handleConnection (cfg : Config) (store : List (String × IConnectInfo))
    (newId : String) (socketIsTLS : Bool) : AcceptResult :=
  if cfg.maxConnections ≠ 0 ∧ store.length ≥ cfg.maxConnections then
    { written := ["* NO Too many connections"], store := store,
      registered := false, destroyed := true }
  else
    let secure := cfg.tlsEnable || socketIsTLS
    { written := ["* OK " ++ cfg.welcomeMessage],
      store := (newId, initialInfo secure) :: store,
      registered := true, destroyed := false }

/-- The SessionState invariant of the specification: `user` is set iff
the state is `authenticated` or `selected`; `selectedMailbox` is set iff
the state is `selected`. -/
def Invariant (info : IConnectInfo) : Prop :=
  (info.user.isSome = true ↔
    (info.state = SessState.authenticated ∨ info.state = SessState.selected))
  ∧ (info.selectedMailbox.isSome = true ↔ info.state = SessState.selected)

/-- Session entries reachable for one connection identifier: the entry
created at accept time (`secure = TLSOptions.enable || socket is TLS`),
anything one inbound line away from a reachable entry, and the destroyed
entry after a connection close. -/
inductive Reachable (cfg : Config) : Option IConnectInfo → Prop where
  | init (isTLS : Bool) :
      Reachable cfg (some (initialInfo (cfg.tlsEnable || isTLS)))
  | step (store : Option IConnectInfo) (env : Env) (cmds : List String) :
      Reachable cfg store → Reachable cfg (handleOnData cfg env store cmds).2
  | closed (store : Option IConnectInfo) :
      Reachable cfg store → Reachable cfg none

/-- What one dispatcher step from entry `info` must guarantee about the
resulting entry `i`: the invariant holds, `secure` never reverts, and a
TLS-enabled listener still implies a secure channel. -/
def StepOk (cfg : Config) (info i : IConnectInfo) : Prop :=
  Invariant i ∧ (info.secure = true → i.secure = true) ∧
    (cfg.tlsEnable = true → i.secure = true)

/-! Concrete fixtures used by closed theorems. -/

/-- A plaintext-listener configuration (TLS disabled, no material). -/
def cfgPlain : Config :=
  { welcomeMessage := "Welcome to Tien Thuy IMAP Server", tlsEnable := false,
    tlsKey := none, tlsCert := none, maxConnections := 0 }

/-- A configuration with TLS enabled and key and cert present. -/
def cfgTLS : Config :=
  { welcomeMessage := "Welcome to Tien Thuy IMAP Server", tlsEnable := true,
    tlsKey := some "key.pem", tlsCert := some "cert.pem",
    maxConnections := 0 }

/-- A configuration with a connection ceiling of one. -/
def cfgMax1 : Config :=
  { welcomeMessage := "Welcome to Tien Thuy IMAP Server", tlsEnable := false,
    tlsKey := none, tlsCert := none, maxConnections := 1 }

/-- Observer set with one LOGIN observer that acknowledges success. -/
def envLoginOk : Env :=
  { listeners := fun e => if e = "LOGIN" then 1 else 0,
    loginAck := some true, selectAck := none, listAck := none,
    tlsWrapOk := true }

/-- Observer set with no observers at all. -/
def envQuiet : Env :=
  { listeners := fun _ => 0, loginAck := none, selectAck := none,
    listAck := none, tlsWrapOk := true }

/-- Observer set with a SELECT observer answering that the mailbox does
not exist. -/
def envSelectNo : Env :=
  { listeners := fun e => if e = "SELECT" then 1 else 0,
    loginAck := none, selectAck := some (false, []), listAck := none,
    tlsWrapOk := true }

/-- Observer set with a LIST observer supplying two mailbox entries. -/
def envListTwo : Env :=
  { listeners := fun e => if e = "LIST" then 1 else 0,
    loginAck := none, selectAck := none,
    listAck := some [{ name := "INBOX", child := false },
                     { name := "Archive", child := true }],
    tlsWrapOk := true }

/-- A session entry authenticated as user bob on a plaintext channel. -/
def infoBob : IConnectInfo :=
  { state := SessState.authenticated, user := some "bob",
    selectedMailbox := none, secure := false }

/-! Helper lemmas about the handlers. -/

/-- The state gate answers the state-violation line and leaves the entry
unchanged whenever the session state is `not_authenticated`. -/
theorem gate_not_auth (info : IConnectInfo) (tag : String)
    (k : List String × Option IConnectInfo)
    (h : info.state = SessState.not_authenticated) :
    requireAuth info tag k
      = ([tag ++ " BAD Command not valid in current state"], some info) := by
  unfold requireAuth
  rw [if_pos]
  rw [h]
  exact ⟨by simp, by simp⟩

/-- C10: if the inbound line parses to at least two tokens but the
session store holds no entry for the identifier of the connection, the
engine answers the single untagged line `* BAD Connection not found`,
dispatches no command and performs no state change. -/
theorem claim10_missing_session_entry (cfg : Config) (env : Env)
    (tag cmd : String) (args : List String) :
    handleOnData cfg env none (tag :: cmd :: args)
      = (["* BAD Connection not found"], none) := rfl

/-- C9: in every session state the CAPABILITY command succeeds, leaves
the entry unchanged, and emits the capability line (with STARTTLS at the
end exactly when the channel is not secure) followed by the tagged OK. -/
theorem claim9_capability_always_succeeds (cfg : Config) (env : Env)
    (info : IConnectInfo) (tag : String) (args : List String) :
    handleOnData cfg env (some info) (tag :: "CAPABILITY" :: args)
      = (["* CAPABILITY IMAP4rev1 IMAP4 AUTH=PLAIN AUTH=LOGIN" ++
            (if info.secure then "" else " STARTTLS"),
          tag ++ " OK CAPABILITY completed"], some info) := by
  have h : handleOnData cfg env (some info) (tag :: "CAPABILITY" :: args)
      = ((commandCapability info tag).1, some (commandCapability info tag).2) := rfl
  rw [h]
  cases hs : info.secure <;>
    simp [commandCapability, capabilityList, hs] <;> decide

/-- C1: every verb of the authenticated-or-better partition dispatched
while the session state is `not_authenticated` answers exactly
`<tag> BAD Command not valid in current state` and leaves the session
entry unchanged. -/
theorem claim1_auth_class_rejected_when_not_authenticated
    (cfg : Config) (env : Env) (info : IConnectInfo) (tag verb : String)
    (args : List String)
    (hverb : verb ∈ (["LOGOUT", "SELECT", "LIST", "CREATE", "EXAMINE",
        "DELETE", "RENAME", "SUBSCRIBE", "UNSUBSCRIBE", "STATUS", "APPEND",
        "CHECK", "CLOSE", "EXPUNGE", "SEARCH", "FETCH", "STORE", "COPY",
        "MOVE"] : List String))
    (hstate : info.state = SessState.not_authenticated) :
    handleOnData cfg env (some info) (tag :: verb :: args)
      = ([tag ++ " BAD Command not valid in current state"], some info) := by
  fin_cases hverb <;> exact gate_not_auth info tag _ hstate

/-- C1 witness: SELECT dispatched on a fresh plaintext connection. -/
theorem claim1_witness :
    handleOnData cfgPlain envQuiet (some (initialInfo false))
        ["w1", "SELECT", "INBOX"]
      = (["w1 BAD Command not valid in current state"],
         some (initialInfo false)) :=
  claim1_auth_class_rejected_when_not_authenticated cfgPlain envQuiet
    (initialInfo false) "w1" "SELECT" ["INBOX"] (by decide) rfl

/-- C2 counterexample: on a TLS-capable configuration, STARTTLS
dispatched in state `not_authenticated` on an insecure channel is
answered with the state-violation BAD line, not handed to the STARTTLS
handler (which would have answered `OK Begin TLS negotiation now`). -/
theorem claim2_counterexample :
    handleOnData cfgTLS envQuiet (some (initialInfo false))
        ["a1", "STARTTLS"]
      = (["a1 BAD Command not valid in current state"],
         some (initialInfo false)) := rfl

/-- C2 amended: STARTTLS sits in the gated fall-through group of the
dispatcher, so in state `not_authenticated` it is rejected with the
state-violation BAD line and never reaches `commandStartTLS`. -/
theorem claim2_amended_starttls_gated (cfg : Config) (env : Env)
    (info : IConnectInfo) (tag : String) (args : List String)
    (hstate : info.state = SessState.not_authenticated) :
    handleOnData cfg env (some info) (tag :: "STARTTLS" :: args)
      = ([tag ++ " BAD Command not valid in current state"], some info) :=
  gate_not_auth info tag _ hstate

/-- C2 witness: the amended statement at a concrete connection. -/
theorem claim2_witness :
    handleOnData cfgTLS envQuiet (some (initialInfo false))
        ["a7", "STARTTLS"]
      = (["a7 BAD Command not valid in current state"],
         some (initialInfo false)) :=
  claim2_amended_starttls_gated cfgTLS envQuiet (initialInfo false)
    "a7" [] rfl

/-- C5: SELECT with an argument, issued in `authenticated` or `selected`,
whose observer answers that the mailbox does not exist, is answered with
the NO line while the entry nonetheless remains `selected` with the
quote-stripped attempted mailbox name recorded (the transition is
committed before the existence answer). -/
theorem claim5_select_nonexistent_commits_state
    (cfg : Config) (env : Env) (info : IConnectInfo) (tag : String)
    (args : List String) (flags : List String)
    (hstate : info.state = SessState.authenticated ∨
      info.state = SessState.selected)
    (hargs : 1 ≤ args.length)
    (hack : env.selectAck = some (false, flags)) :
    handleOnData cfg env (some info) (tag :: "SELECT" :: args)
      = ([tag ++ " NO Mailbox doesn\x27t exist (Failure)"],
         some { info with
                  state := SessState.selected,
                  selectedMailbox := some (stripQuotes (args.headD "")) }) := by
  have h1 : handleOnData cfg env (some info) (tag :: "SELECT" :: args)
      = requireAuth info tag
          ((commandSelect env info tag args).1,
           some (commandSelect env info tag args).2) := rfl
  have hgate : ¬ (info.state ≠ SessState.authenticated ∧
      info.state ≠ SessState.selected) := by
    rcases hstate with h | h <;> simp [h]
  rw [h1]
  unfold requireAuth
  rw [if_neg hgate]
  unfold commandSelect
  rw [if_neg hgate, if_neg (by omega), hack]

/-- C5 witness: SELECT "INBOX" as authenticated bob, observer answers
that the mailbox does not exist. -/
theorem claim5_witness :
    handleOnData cfgPlain envSelectNo (some infoBob)
        ["a2", "SELECT", "\x22INBOX\x22"]
      = (["a2 NO Mailbox doesn\x27t exist (Failure)"],
         some { state := SessState.selected, user := some "bob",
                selectedMailbox := some "INBOX", secure := false }) :=
  claim5_select_nonexistent_commits_state cfgPlain envSelectNo infoBob
    "a2" ["\x22INBOX\x22"] [] (Or.inl rfl) (by decide) rfl

/-- C8: LIST with two arguments, issued in `authenticated` or `selected`,
whose observer supplies the mailbox entries `mbs`, emits exactly one
untagged LIST line per entry, in the order supplied, followed by exactly
one tagged OK line, and the entry is unchanged. -/
theorem claim8_list_roundtrip (cfg : Config) (env : Env)
    (info : IConnectInfo) (tag : String) (args : List String)
    (mbs : List Mailbox)
    (hstate : info.state = SessState.authenticated ∨
      info.state = SessState.selected)
    (hargs : 2 ≤ args.length)
    (hack : env.listAck = some mbs) :
    handleOnData cfg env (some info) (tag :: "LIST" :: args)
      = (mbs.map renderListLine ++ [tag ++ " OK LIST completed"],
         some info) := by
  have h1 : handleOnData cfg env (some info) (tag :: "LIST" :: args)
      = requireAuth info tag
          ((commandList env info tag args).1,
           some (commandList env info tag args).2) := rfl
  have hgate : ¬ (info.state ≠ SessState.authenticated ∧
      info.state ≠ SessState.selected) := by
    rcases hstate with h | h <;> simp [h]
  rw [h1]
  unfold requireAuth
  rw [if_neg hgate]
  unfold commandList
  rw [if_neg hgate, if_neg (by omega), hack]

/-- C8 witness: LIST with a two-entry observer answer renders the two
LIST lines then the OK line. -/
theorem claim8_witness :
    handleOnData cfgPlain envListTwo (some infoBob)
        ["a3", "LIST", "\x22\x22", "*"]
      = (["* LIST (\\NoChildren) \x22.\x22 \x22INBOX\x22",
          "* LIST (\\HasChildren) \x22.\x22 \x22Archive\x22",
          "a3 OK LIST completed"], some infoBob) :=
  claim8_list_roundtrip cfgPlain envListTwo infoBob "a3"
    ["\x22\x22", "*"]
    [{ name := "INBOX", child := false },
     { name := "Archive", child := true }]
    (Or.inl rfl) (by decide) rfl

/-- C7: when STARTTLS succeeds (channel not yet secure, TLS enabled with
key and cert present, wrap succeeds), the entry kept under the same
connection identifier preserves `state` and `user` exactly and `secure`
flips from false to true. -/
theorem claim7_starttls_preserves_identity (cfg : Config) (env : Env)
    (info : IConnectInfo) (tag : String)
    (hsec : info.secure = false)
    (henable : cfg.tlsEnable = true)
    (hkey : strFalsy cfg.tlsKey = false)
    (hcert : strFalsy cfg.tlsCert = false)
    (hwrap : env.tlsWrapOk = true) :
    commandStartTLS cfg env info tag
      = ([tag ++ " OK Begin TLS negotiation now"],
         some { state := info.state, user := info.user,
                selectedMailbox := none, secure := true }) := by
  unfold commandStartTLS
  rw [hsec, henable, hkey, hcert, hwrap]
  simp

/-- C7 witness: STARTTLS for authenticated bob on an insecure channel of
a TLS-capable configuration. -/
theorem claim7_witness :
    commandStartTLS cfgTLS envQuiet infoBob "a4"
      = (["a4 OK Begin TLS negotiation now"],
         some { state := SessState.authenticated, user := some "bob",
                selectedMailbox := none, secure := true }) :=
  claim7_starttls_preserves_identity cfgTLS envQuiet infoBob "a4"
    rfl rfl rfl rfl rfl

/-- C6: an inbound transport is rejected with the single line
`* NO Too many connections` and destroyed, allocating no Connection and
no session entry (the store is unchanged), exactly when the configured
ceiling is nonzero and the live session count has reached it; otherwise
a Connection is registered and the entry
`{state: not_authenticated, secure: enable or TLS socket}` is stored. -/
theorem claim6_admission_control (cfg : Config)
    (store : List (String × IConnectInfo)) (newId : String)
    (isTLS : Bool) :
    (cfg.maxConnections ≠ 0 ∧ store.length ≥ cfg.maxConnections →
      handleConnection cfg store newId isTLS
        = { written := ["* NO Too many connections"], store := store,
            registered := false, destroyed := true })
    ∧ (¬ (cfg.maxConnections ≠ 0 ∧ store.length ≥ cfg.maxConnections) →
      handleConnection cfg store newId isTLS
        = { written := ["* OK " ++ cfg.welcomeMessage],
            store := (newId, initialInfo (cfg.tlsEnable || isTLS)) :: store,
            registered := true, destroyed := false }) := by
  constructor <;> intro h <;> unfold handleConnection
  · rw [if_pos h]
  · rw [if_neg h]

/-- C6 witness: with `maxConnections = 1` and one live session the next
transport is rejected and the store is unchanged; on an empty store the
transport is admitted and registered. -/
theorem claim6_witness :
    handleConnection cfgMax1 [("c1", initialInfo false)] "c2" false
      = { written := ["* NO Too many connections"],
          store := [("c1", initialInfo false)],
          registered := false, destroyed := true }
    ∧ handleConnection cfgMax1 [] "c3" false
      = { written := ["* OK Welcome to Tien Thuy IMAP Server"],
          store := [("c3", initialInfo false)],
          registered := true, destroyed := false } :=
  ⟨(claim6_admission_control cfgMax1 [("c1", initialInfo false)] "c2"
      false).1 (by exact ⟨by decide, by decide⟩),
   (claim6_admission_control cfgMax1 [] "c3" false).2 (by decide)⟩

/-- C3: the code at the failing input. LOGIN with two arguments in state
`not_authenticated`, with a registered LOGIN observer that acknowledges
success, does transition to `authenticated` with the quote-stripped user
recorded, but emits TWO responses: the OK line and then `NO LOGIN failed`,
because `commandLogin` checks `listenerCount('login')` (lower-case) while
observers register under the event name `'LOGIN'`, so the no-observer
fallback fires unconditionally. -/
theorem claim3_login_double_response :
    handleOnData cfgPlain envLoginOk (some (initialInfo false))
        ["a1", "LOGIN", "\x22bob\x22", "\x22pw\x22"]
      = (["a1 OK LOGIN completed", "a1 NO LOGIN failed"],
         some { state := SessState.authenticated, user := some "bob",
                selectedMailbox := none, secure := false }) := rfl

/-! Preservation lemmas for the session-state invariant. -/

/-- CAPABILITY does not touch the entry. -/
theorem commandCapability_snd (info : IConnectInfo) (tag : String) :
    (commandCapability info tag).2 = info := rfl

/-- The extension handlers do not touch the entry. -/
theorem commandExtension_snd (info : IConnectInfo) (tag : String)
    (args : List String) : (commandExtension info tag args).2 = info := by
  unfold commandExtension
  split <;> rfl

/-- LIST does not touch the entry. -/
theorem commandList_snd (env : Env) (info : IConnectInfo) (tag : String)
    (args : List String) : (commandList env info tag args).2 = info := by
  unfold commandList
  split
  · rfl
  split
  · rfl
  · cases henv : env.listAck <;> rfl

/-- LOGOUT destroys the entry. -/
theorem commandLogout_snd (info : IConnectInfo) (tag : String) :
    (commandLogout info tag).2 = none := rfl

/-- Under the auxiliary fact that a TLS-enabled listener implies a secure
channel, STARTTLS either keeps the entry unchanged or destroys it: the
success branch that re-creates the entry requires `secure = false`
together with `TLSOptions.enable = true`, which that fact rules out. -/
theorem commandStartTLS_snd (cfg : Config) (env : Env)
    (info : IConnectInfo) (tag : String)
    (hsec : cfg.tlsEnable = true → info.secure = true) :
    ∀ i, (commandStartTLS cfg env info tag).2 = some i → i = info := by
  intro i hi
  unfold commandStartTLS at hi
  split at hi
  · exact (Option.some.inj hi).symm
  split at hi
  · exact (Option.some.inj hi).symm
  · rename_i h1 h2
    exfalso
    have henable : cfg.tlsEnable = true := by
      by_contra hne
      have hfalse : cfg.tlsEnable = false := by
        cases hcase : cfg.tlsEnable
        · rfl
        · exact absurd hcase hne
      exact h2 (by simp [hfalse])
    exact h1 (hsec henable)

/-- LOGIN preserves the invariant and never changes `secure`. -/
theorem commandLogin_step (env : Env) (info : IConnectInfo) (tag : String)
    (args : List String) (h : Invariant info) :
    Invariant (commandLogin env info tag args).2 ∧
      (commandLogin env info tag args).2.secure = info.secure := by
  unfold commandLogin
  split
  · exact ⟨h, rfl⟩
  split
  · exact ⟨h, rfl⟩
  · rename_i hstate hlen
    have hst : info.state = SessState.not_authenticated := not_not.mp hstate
    have hmb : info.selectedMailbox.isSome = false := by
      rcases h with ⟨h1, h2⟩
      rw [hst] at h2
      simpa using h2
    cases hl : env.loginAck with
    | none => exact ⟨h, rfl⟩
    | some b =>
      cases b
      · exact ⟨h, rfl⟩
      · refine ⟨⟨by simp, by simp [hmb]⟩, rfl⟩

/-- SELECT preserves the invariant and never changes `secure`. -/
theorem commandSelect_step (env : Env) (info : IConnectInfo) (tag : String)
    (args : List String) (h : Invariant info) :
    Invariant (commandSelect env info tag args).2 ∧
      (commandSelect env info tag args).2.secure = info.secure := by
  unfold commandSelect
  split
  · exact ⟨h, rfl⟩
  split
  · exact ⟨h, rfl⟩
  · rename_i hgate hlen
    have hstate : info.state = SessState.authenticated ∨
        info.state = SessState.selected := by
      by_contra hc
      push_neg at hc
      exact hgate ⟨hc.1, hc.2⟩
    have huser : info.user.isSome = true := h.1.mpr hstate
    rcases hsel : env.selectAck with _ | ⟨b, flags⟩
    · exact ⟨⟨by simp [huser], by simp⟩, rfl⟩
    · cases b
      · exact ⟨⟨by simp [huser], by simp⟩, rfl⟩
      · exact ⟨⟨by simp [huser], by simp⟩, rfl⟩

/-- StepOk for an entry whose `secure` field matches the old entry. -/
theorem stepOk_of_secure_eq (cfg : Config) (info i : IConnectInfo)
    (hInv : Invariant i) (hs : i.secure = info.secure)
    (hsec : cfg.tlsEnable = true → info.secure = true) :
    StepOk cfg info i :=
  ⟨hInv, fun hb => hs.trans hb, fun he => hs.trans (hsec he)⟩

/-- Lifting a handler StepOk guarantee through the state gate. -/
theorem requireAuth_step (cfg : Config) (info : IConnectInfo)
    (tag : String) (k : List String × Option IConnectInfo)
    (hself : StepOk cfg info info)
    (hk : ∀ i, k.2 = some i → StepOk cfg info i) :
    ∀ i, (requireAuth info tag k).2 = some i → StepOk cfg info i := by
  intro i hi
  unfold requireAuth at hi
  split at hi
  · have hii := Option.some.inj hi
    subst hii
    exact hself
  · exact hk i hi

/-- Every branch of the dispatcher preserves the invariant, never reverts
`secure`, and keeps the TLS-enabled-implies-secure fact. -/
theorem dispatch_step (cfg : Config) (env : Env) (info : IConnectInfo)
    (tag command : String) (args : List String) (h : Invariant info)
    (hsec : cfg.tlsEnable = true → info.secure = true) :
    ∀ i, (dispatchCommand cfg env info tag command args).2 = some i →
      StepOk cfg info i := by
  have hself : StepOk cfg info info := ⟨h, fun x => x, hsec⟩
  intro i hi
  unfold dispatchCommand at hi
  cases hv : parseVerb command <;> rw [hv] at hi
  case capability =>
    have hii := Option.some.inj hi
    subst hii
    exact hself
  case login =>
    have hii := Option.some.inj hi
    subst hii
    obtain ⟨h1, h2⟩ := commandLogin_step env info tag args h
    exact stepOk_of_secure_eq cfg info _ h1 h2 hsec
  case logout =>
    refine requireAuth_step cfg info tag _ hself ?_ i hi
    intro j hj
    rw [commandLogout_snd] at hj
    exact Option.noConfusion hj
  case select =>
    refine requireAuth_step cfg info tag _ hself ?_ i hi
    intro j hj
    have hjj := Option.some.inj hj
    subst hjj
    obtain ⟨h1, h2⟩ := commandSelect_step env info tag args h
    exact stepOk_of_secure_eq cfg info _ h1 h2 hsec
  case list =>
    refine requireAuth_step cfg info tag _ hself ?_ i hi
    intro j hj
    have hjj := Option.some.inj hj
    have h3 : info = j := (commandList_snd env info tag args).symm.trans hjj
    subst h3
    exact hself
  case noop =>
    refine requireAuth_step cfg info tag _ hself ?_ i hi
    intro j hj
    have hjj := Option.some.inj hj
    subst hjj
    exact hself
  case starttls =>
    refine requireAuth_step cfg info tag _ hself ?_ i hi
    intro j hj
    have h3 := commandStartTLS_snd cfg env info tag hsec j hj
    subst h3
    exact hself
  case unknown =>
    have hii := Option.some.inj hi
    subst hii
    exact hself
  all_goals
    refine requireAuth_step cfg info tag _ hself ?_ i hi
  all_goals
    intro j hj
  all_goals
    have hjj := Option.some.inj hj
  all_goals
    have h3 : info = j := (commandExtension_snd info tag args).symm.trans hjj
  all_goals
    subst h3
  all_goals
    exact hself

/-- One inbound line preserves the invariant and the secure facts. -/
theorem handleOnData_step (cfg : Config) (env : Env) (info : IConnectInfo)
    (cmds : List String) (h : Invariant info)
    (hsec : cfg.tlsEnable = true → info.secure = true) :
    ∀ i, (handleOnData cfg env (some info) cmds).2 = some i →
      StepOk cfg info i := by
  intro i hi
  rcases cmds with _ | ⟨t, _ | ⟨c, rest⟩⟩
  · have hii := Option.some.inj hi
    subst hii
    exact ⟨h, fun x => x, hsec⟩
  · have hii := Option.some.inj hi
    subst hii
    exact ⟨h, fun x => x, hsec⟩
  · exact dispatch_step cfg env info t (upperStr c) rest h hsec i hi

/-- Every reachable session entry satisfies the invariant, and on a
TLS-enabled listener every reachable entry is secure. -/
theorem reachable_entry_ok (cfg : Config) (store : Option IConnectInfo)
    (h : Reachable cfg store) :
    ∀ info, store = some info →
      Invariant info ∧ (cfg.tlsEnable = true → info.secure = true) := by
  induction h with
  | init isTLS =>
      intro info hinfo
      have hii := Option.some.inj hinfo
      subst hii
      constructor
      · exact ⟨by simp [initialInfo], by simp [initialInfo]⟩
      · intro he
        simp [initialInfo, he]
  | step store env cmds hr ih =>
      intro info hinfo
      rcases hstore : store with _ | prev
      · subst hstore
        rcases cmds with _ | ⟨t, _ | ⟨c, rest⟩⟩ <;> simp [handleOnData] at hinfo
      · subst hstore
        obtain ⟨hInv, hSec⟩ := ih prev rfl
        obtain ⟨h1, _, h3⟩ :=
          handleOnData_step cfg env prev cmds hInv hSec info hinfo
        exact ⟨h1, h3⟩
  | closed store hr ih =>
      intro info hinfo
      exact Option.noConfusion hinfo

/-- C4: every reachable session entry satisfies the invariant (`user` is
set iff the state is `authenticated` or `selected`; `selectedMailbox` is
set iff the state is `selected`), and every command handler preserves it:
one dispatched line from a reachable entry yields an entry that again
satisfies the invariant, and `secure` is monotonic (once true it stays
true across every step for this identifier). -/
theorem claim4_invariant_reachable (cfg : Config)
    (store : Option IConnectInfo) (h : Reachable cfg store) :
    (∀ info, store = some info → Invariant info) ∧
    (∀ env cmds info info', store = some info →
       (handleOnData cfg env store cmds).2 = some info' →
       Invariant info' ∧ (info.secure = true → info'.secure = true)) := by
  constructor
  · intro info hinfo
    exact (reachable_entry_ok cfg store h info hinfo).1
  · intro env cmds info info' hinfo hstep
    obtain ⟨hInv, hSec⟩ := reachable_entry_ok cfg store h info hinfo
    subst hinfo
    obtain ⟨h1, h2, _⟩ :=
      handleOnData_step cfg env info cmds hInv hSec info' hstep
    exact ⟨h1, h2⟩

/-- C4 witness: the initial entry of a plaintext connection satisfies the
invariant, and so does the entry after a successful LOGIN step. -/
theorem claim4_witness :
    Invariant (initialInfo false) ∧
    Invariant { state := SessState.authenticated, user := some "bob",
                selectedMailbox := none, secure := false } := by
  constructor
  · exact (claim4_invariant_reachable cfgPlain (some (initialInfo false))
      (Reachable.init false)).1 (initialInfo false) rfl
  · exact ((claim4_invariant_reachable cfgPlain (some (initialInfo false))
      (Reachable.init false)).2 envLoginOk ["a1", "LOGIN", "bob", "pw"]
      (initialInfo false)
      { state := SessState.authenticated, user := some "bob",
        selectedMailbox := none, secure := false } rfl rfl).1
